import Mathlib

/-!
Verification of the strax configuration model (`strax/config.py`) and the
test-fixture bound generators (`strax/testutils.py`), as a shallow embedding.

Python values that can appear as option values, defaults, run-default entries
and configuration entries are modelled by the inductive `Val`.  The sentinel
`OMITTED` (a unique marker object in the source) is modelled by the dedicated
constructor `Val.omitted`, so that `x is OMITTED` becomes `x = Val.omitted`.
Raised exceptions are modelled by `Except ConfigError`.
-/

/-- A Python value as used by the configuration model.  `omitted` models the
unique `OMITTED` sentinel (identity-distinct from every ordinary value);
`pynone` models Python `None`.  Only the atomic value shapes that the two
source files put into options and configurations are modelled. -/
inductive Val where
  | omitted : Val
  | pynone : Val
  | bool (b : Bool) : Val
  | int (n : Int) : Val
  | str (s : String) : Val
deriving DecidableEq

/-- Runtime type classifications used by `Option.type`: concrete built-in
types plus the abstract-number classes `numbers.Integral` / `numbers.Number`. -/
inductive PyType where
  | intTy | strTy | boolTy | listTy | noneTy | integral | number
deriving DecidableEq

/-- The `type` field of an option: the `OMITTED` sentinel (unchecked), a single
type, or a tuple/list of admissible types. -/
inductive TypeSpec where
  | omitted : TypeSpec
  | ty (t : PyType) : TypeSpec
  | tys (ts : List PyType) : TypeSpec
deriving DecidableEq

/-- `isinstance` for a single type classification.  Python `bool` is a
subclass of `int`, and both are registered under `numbers.Integral` and
`numbers.Number`. -/
def isinstance1 : Val → PyType → Bool
  | Val.bool _, PyType.boolTy => true
  | Val.bool _, PyType.intTy => true
  | Val.bool _, PyType.integral => true
  | Val.bool _, PyType.number => true
  | Val.int _, PyType.intTy => true
  | Val.int _, PyType.integral => true
  | Val.int _, PyType.number => true
  | Val.str _, PyType.strTy => true
  | Val.pynone, PyType.noneTy => true
  | _, _ => false

/-- `isinstance(value, spec)` where the spec may be a single type or a
tuple/list of types. -/
def isinstanceSpec (v : Val) : TypeSpec → Bool
  | TypeSpec.omitted => false
  | TypeSpec.ty t => isinstance1 v t
  | TypeSpec.tys ts => ts.any (fun t => isinstance1 v t)

/-- `builtins.type(v)`: the concrete runtime class of a value. -/
def runtime_type : Val → PyType
  | Val.omitted => PyType.strTy
  | Val.pynone => PyType.noneTy
  | Val.bool _ => PyType.boolTy
  | Val.int _ => PyType.intTy
  | Val.str _ => PyType.strTy

/-- The exceptions the configuration model can raise, by Python class. -/
inductive ConfigError where
  | runtimeError (msg : String) : ConfigError
  | valueError (msg : String) : ConfigError
  | invalidConfiguration (msg : String) : ConfigError
  | attributeError (msg : String) : ConfigError
  | nameError (msg : String) : ConfigError
deriving DecidableEq

/-- The `default_factory` field: the `OMITTED` sentinel or a zero-argument
callable producing a value. -/
inductive Factory where
  | omitted : Factory
  | fn (f : Unit → Val) : Factory

/-- The `default_by_run` field: the `OMITTED` sentinel, a callable (no longer
supported at resolution time), or a list of `(start_run_id, value)` pairs. -/
inductive DefaultByRun where
  | omitted : DefaultByRun
  | callable : DefaultByRun
  | table (t : List (Int × Val)) : DefaultByRun

/-- A run identifier as passed to `get_default`: Python `None`, an `int`, or a
`str`. -/
inductive RunId where
  | pynone : RunId
  | int (n : Int) : RunId
  | str (s : String) : RunId

/-- A Python `dict` with `String` keys, modelled as an association list in
insertion order (keys unique when built by `dictSet` from an empty dict). -/
abbrev Dict := List (String × Val)

/-- Key lookup (`d[k]` / `k in d`): the value at the first matching key. -/
def dictGet {α : Type} : List (String × α) → String → Option α
  | [], _ => none
  | kv :: rest, key => if kv.1 = key then some kv.2 else dictGet rest key

/-- Key assignment `d[k] = v`: replaces the value at an existing key in place
(keeping its position, as Python dicts do) or appends a new key at the end. -/
def dictSet {α : Type} : List (String × α) → String → α → List (String × α)
  | [], key, v => [(key, v)]
  | kv :: rest, key, v =>
      if kv.1 = key then (key, v) :: rest else kv :: dictSet rest key v

/-- Configuration option taken by a strax plugin (`class Option`).  The field
`isConfig` records whether the object is an instance of the `Config` subclass
(used by the `isinstance(opt, strax.Config)` check in `takes_config`).
`taken_by` is unset until registration; modelled as initially `""`. -/
structure StraxOption where
  name : String
  type : TypeSpec := TypeSpec.omitted
  default : Val := Val.omitted
  default_factory : Factory := Factory.omitted
  default_by_run : DefaultByRun := DefaultByRun.omitted
  child_option : Bool := false
  parent_option_name : Option String := none
  track : Bool := true
  help : String := ""
  taken_by : String := ""
  isConfig : Bool := false

/-- Python truthiness of an optional string (`None` and `""` are falsy), as
used by the `child_option`/`parent_option_name` consistency check. -/
def pyTruthyStr : Option String → Bool
  | none => false
  | some s => !s.isEmpty

/-- The number of default strategies supplied, mirroring
`sum([default is not OMITTED, default_factory is not OMITTED,
default_by_run is not OMITTED])`. -/
def countDefaults (o : StraxOption) : Nat :=
  (if o.default ≠ Val.omitted then 1 else 0)
    + (match o.default_factory with | Factory.omitted => 0 | Factory.fn _ => 1)
    + (match o.default_by_run with | DefaultByRun.omitted => 0 | _ => 1)

/-- The error message of the `child_option`/`parent_option_name` check. -/
def childParentMsg (name : String) : String :=
  "You have to specify both, \x22child_option\x22=True and "
    ++ "the name of the parent option which should be "
    ++ "overwritten by the child. Options which are unique "
    ++ "to the child should not be marked as a child option."
    ++ "Please update " ++ name ++ " accordingly."

/-- The type-inference step at the end of `Option.__init__`: when requested
and no explicit type was given, prefer the abstract number classes over the
concrete class of the default. -/
def apply_infer_type (o : StraxOption) (infer_type : Bool) : StraxOption :=
  if infer_type && o.type == TypeSpec.omitted && o.default != Val.omitted then
    if isinstance1 o.default PyType.integral then
      { o with type := TypeSpec.ty PyType.integral }
    else if isinstance1 o.default PyType.number then
      { o with type := TypeSpec.ty PyType.number }
    else { o with type := TypeSpec.ty (runtime_type o.default) }
  else o

/-- `Option.__init__`: stores the fields, then raises on an inconsistent
`child_option`/`parent_option_name` pair, then raises when more than one
default strategy is supplied, then runs type inference. -/
def mk_option (name : String) (type : TypeSpec) (default : Val)
    (default_factory : Factory) (default_by_run : DefaultByRun)
    (child_option : Bool) (parent_option_name : Option String)
    (track : Bool) (infer_type : Bool) (help : String) :
    Except ConfigError StraxOption :=
  let o : StraxOption :=
    { name := name, type := type, default := default,
      default_factory := default_factory, default_by_run := default_by_run,
      child_option := child_option, parent_option_name := parent_option_name,
      track := track, help := help }
  if (o.child_option && !pyTruthyStr o.parent_option_name)
      || (!o.child_option && pyTruthyStr o.parent_option_name) then
    Except.error (ConfigError.valueError (childParentMsg o.name))
  else if countDefaults o > 1 then
    Except.error (ConfigError.runtimeError
      ("Tried to specify more than one default for option " ++ o.name ++ "."))
  else
    Except.ok (apply_infer_type o infer_type)

/-- Modelled from the spec: `strax.deterministic_hash` — the external
deterministic, stable hash over arbitrary nested values (spec section 6), not
part of the two source files; applied in this code base only to
`default_by_run` tables.  Modelled as a stable serialisation of the table. -/
def valSerial : Val → String
  | Val.omitted => "<OMITTED>"
  | Val.pynone => "None"
  | Val.bool b => if b then ("True") else ("False")
  | Val.int n => toString n
  | Val.str s => "s:" ++ s

/-- Modelled from the spec: the deterministic hash of a `default_by_run`
table (see `valSerial`). -/
def deterministic_hash (t : List (Int × Val)) : String :=
  String.intercalate (";")
    (t.map (fun p => toString p.1 ++ ":" ++ valSerial p.2))

/-- `s.startswith("_")`. -/
def startsWithUnderscore (s : String) : Bool :=
  match s.data with
  | c :: _ => c == '_'
  | [] => false

/-- `s.replace("_", "")`. -/
def stripUnderscores (s : String) : String :=
  String.mk (s.data.filter (fun c => c ≠ '_'))

/-- Digit-sequence value accumulator for `pyInt`. -/
def digitsValAux (acc : Nat) : List Char → Option Nat
  | [] => some acc
  | c :: cs =>
      if c.isDigit then digitsValAux (acc * 10 + (c.toNat - 48)) cs else none

/-- Value of a non-empty all-digit character sequence. -/
def parseDigits (cs : List Char) : Option Nat :=
  if cs.isEmpty then none else digitsValAux 0 cs

/-- Python `int(s)` on the strings this code base feeds it: an optional sign
followed by digits; anything else raises `ValueError`. -/
def pyInt (s : String) : Except ConfigError Int :=
  match s.data with
  | '-' :: rest =>
      match parseDigits rest with
      | some n => Except.ok (-(n : Int))
      | none => Except.error (ConfigError.valueError
          ("invalid literal for int with base 10: " ++ s))
  | cs =>
      match parseDigits cs with
      | some n => Except.ok (n : Int)
      | none => Except.error (ConfigError.valueError
          ("invalid literal for int with base 10: " ++ s))

/-- The run-id normalisation at the top of the `default_by_run` branch of
`get_default`: `None` counts as run `0`; a string is tested for the super-run
marker (leading underscore) and, when not a super-run, has its underscores
stripped and is parsed as an integer; a non-string never is a super-run.
Returns the (parsed) integer run id and the super-run flag. -/
def parse_run_id : RunId → Except ConfigError (Int × Bool)
  | RunId.pynone => Except.ok (0, false)
  | RunId.int n => Except.ok (n, false)
  | RunId.str s =>
      if startsWithUnderscore s then Except.ok (0, true)
      else
        match pyInt (stripUnderscores s) with
        | Except.ok n => Except.ok (n, false)
        | Except.error e => Except.error e

/-- The `use_value` loop of `get_default`: starting from `OMITTED`, walk the
table in order; stop at the first entry with `start_run > run_id`, otherwise
take its value and continue. -/
def lookupByRunAux (acc : Val) : List (Int × Val) → Int → Val
  | [], _ => acc
  | (start_run, value) :: rest, run_id =>
      if start_run > run_id then acc else lookupByRunAux value rest run_id

/-- The `ValueError` message raised when no table entry applies.  In the
source only the first fragment is an f-string, so `start_run` and `self.name`
appear literally in the message. -/
def byRunErrMsg (run_id : Int) : String :=
  "Run id " ++ toString run_id ++ " is smaller than the "
    ++ "lowest run id \x7bstart_run\x7d for which the default "
    ++ "of the option \x7bself.name\x7d is known."

/-- The message of the unsupported-callable `default_by_run` error (the two
source fragments concatenate without a space, reproduced here). -/
def callableByRunMsg : String :=
  "Using functions to specify per-run defaults is no longer"
    ++ "supported: specify a (first_run, option) list, or "
    ++ "a URL of a file to process in the plugin"

/-- The missing-required-option message of `get_default`. -/
def missingOptionMsg (name owner : String) : String :=
  "Missing option " ++ name ++ " required by " ++ owner

/-- Lines 157–193 of `Option.get_default`: the `default_by_run` block
followed by the final `InvalidConfiguration` raise.  The run id is normalised
before the callable check (so an unparseable ordinary string id raises its
`ValueError` first), then a callable table raises, then a super-run id
resolves to the hash placeholder, and otherwise the table is scanned. -/
def default_by_run_resolve (o : StraxOption) (run_id : RunId) :
    Except ConfigError Val :=
  match o.default_by_run with
  | DefaultByRun.omitted =>
      Except.error (ConfigError.invalidConfiguration
        (missingOptionMsg o.name o.taken_by))
  | DefaultByRun.callable =>
      match parse_run_id run_id with
      | Except.error e => Except.error e
      | Except.ok _ =>
          Except.error (ConfigError.runtimeError callableByRunMsg)
  | DefaultByRun.table t =>
      match parse_run_id run_id with
      | Except.error e => Except.error e
      | Except.ok (rid, is_superrun) =>
          if is_superrun then
            Except.ok (Val.str
              ("<SUBRUN-DEPENDENT:" ++ deterministic_hash t ++ ">"))
          else
            let use_value := lookupByRunAux Val.omitted t rid
            if use_value = Val.omitted then
              Except.error (ConfigError.valueError (byRunErrMsg rid))
            else Except.ok use_value

/-- The run-defaults lookup at the top of `get_default`:
`run_defaults is not None and self.name in run_defaults`. -/
def rdLookup (run_defaults : Option Dict) (name : String) : Option Val :=
  match run_defaults with
  | some d => dictGet d name
  | none => none

/-- `Option.get_default(run_id, run_defaults)`: a run-defaults entry wins,
else the static default, else a fresh factory call, else the legacy
`default_by_run` mechanism, else the missing-option error (the last two are
`default_by_run_resolve`). -/
def StraxOption.get_default (o : StraxOption) (run_id : RunId)
    (run_defaults : Option Dict) : Except ConfigError Val :=
  match rdLookup run_defaults o.name with
  | some v => Except.ok v
  | none =>
      if o.default ≠ Val.omitted then Except.ok o.default
      else
        match o.default_factory with
        | Factory.fn f => Except.ok (f ())
        | Factory.omitted => default_by_run_resolve o run_id

/-- `Option.validate(config, run_id, run_defaults, set_defaults)`: when the
option is present, the source constructs a `UserWarning` on a type mismatch
but never raises or emits it, so the branch returns the configuration
unchanged; when absent and `set_defaults` is set, the default is inserted;
otherwise the configuration is returned unchanged. -/
def StraxOption.validate (o : StraxOption) (config : Dict) (run_id : RunId)
    (run_defaults : Option Dict) (set_defaults : Bool) :
    Except ConfigError Dict :=
  match dictGet config o.name with
  | some value =>
      let _warn :=
        o.type != TypeSpec.omitted && !isinstanceSpec value o.type
      Except.ok config
  | none =>
      if set_defaults then
        match o.get_default run_id run_defaults with
        | Except.ok v => Except.ok (dictSet config o.name v)
        | Except.error e => Except.error e
      else Except.ok config

/-- A plugin class as the configuration layer sees it: its `__name__`, its
(possibly absent) `takes_config` registry attribute, and the class attributes
installed by `setattr`. -/
structure PluginClass where
  name : String
  takes_config : Option (List (String × StraxOption)) := none
  attrs : List (String × StraxOption) := []

/-- The registry type attached to plugin classes under `takes_config`
(an `immutabledict` in the source; immutability is implicit here). -/
abbrev Registry := List (String × StraxOption)

/-- The first `for opt in options` loop of `takes_config`: stamp each
the `taken_by` of each option with the class name and store it under its name
(`result[opt.name] = opt`; a repeated name silently overwrites in place). -/
def declared_registry (options : List StraxOption) (class_name : String) :
    Registry :=
  options.foldl
    (fun r opt => dictSet r opt.name { opt with taken_by := class_name }) []

/-- Install `pc.takes_config`, then `setattr` the given option (the loop
variable left over after all loops) when it is a `Config` instance. -/
def takes_config_finish (pc : PluginClass) (registry : Registry)
    (opt : StraxOption) : PluginClass :=
  let pc := { pc with takes_config := some registry }
  if opt.isConfig then { pc with attrs := dictSet pc.attrs opt.name opt }
  else pc

/-- The `takes_config(*options)` decorator applied to a plugin class
(`wrapped(plugin_class)` in the source).  With no options the trailing
`isinstance(opt, strax.Config)` reads the never-bound loop variable and the
application raises `NameError`.  Otherwise: when the class already carries a
non-empty registry, each new option colliding with it raises (duplicates
*within* the call were already collapsed by the dict `result`), the registry
becomes the merge `{**old, **result}`, and the collision loop leaves the loop
variable bound to the last value of `result`; when it does not, the registry
becomes `result` and the loop variable is the last supplied option. -/
def takes_config (options : List StraxOption) (plugin_class : PluginClass) :
    Except ConfigError PluginClass :=
  match options with
  | [] => Except.error (ConfigError.nameError ("name opt is not defined"))
  | o0 :: rest =>
      let result := declared_registry options plugin_class.name
      let opt_loop : StraxOption :=
        { rest.getLastD o0 with taken_by := plugin_class.name }
      match plugin_class.takes_config with
      | some old =>
          if old.length > 0 then
            match result.find? (fun kv => (dictGet old kv.1).isSome) with
            | some kv =>
                Except.error (ConfigError.runtimeError
                  ("Attempt to specify option " ++ kv.1 ++ " twice"))
            | none =>
                let opt_rebound := (result.getLastD (opt_loop.name, opt_loop)).2
                Except.ok (takes_config_finish plugin_class
                  (old ++ result) opt_rebound)
          else Except.ok (takes_config_finish plugin_class result opt_loop)
      | none => Except.ok (takes_config_finish plugin_class result opt_loop)

/-- `Config.__set_name__(owner, name)`: adopt the attribute name and owner,
then merge this single option into the registry of the owner with the same
duplicate-name check as `takes_config`. -/
def Config.set_name (o : StraxOption) (owner : PluginClass) (name : String) :
    Except ConfigError PluginClass :=
  let o := { o with name := name, taken_by := owner.name }
  let new_takes_config : Registry := [(name, o)]
  match owner.takes_config with
  | some old =>
      if old.length > 0 then
        if (dictGet old name).isSome then
          Except.error (ConfigError.runtimeError
            ("Attempt to specify option " ++ name ++ " twice"))
        else Except.ok
          { owner with takes_config := some (old ++ new_takes_config) }
      else Except.ok { owner with takes_config := some new_takes_config }
  | none => Except.ok { owner with takes_config := some new_takes_config }

/-- A plugin instance as `Config.fetch` sees it: its (possibly absent)
`config` mapping and its `run_id`. -/
structure PluginInstance where
  config : Option Dict := none
  run_id : RunId := RunId.pynone

/-- `Config.fetch(plugin)`: error when the plugin has no `config` attribute;
else the configured value when present; else the computed default via
`get_default(plugin.run_id)` (with no run defaults). -/
def Config.fetch (o : StraxOption) (plugin : PluginInstance) :
    Except ConfigError Val :=
  match plugin.config with
  | none => Except.error
      (ConfigError.attributeError ("Plugin has not been configured."))
  | some cfg =>
      match dictGet cfg o.name with
      | some v => Except.ok v
      | none => o.get_default plugin.run_id none

/-- `Config.__get__`: delegates to `fetch`. -/
def Config.get_descriptor (o : StraxOption) (plugin : PluginInstance) :
    Except ConfigError Val :=
  Config.fetch o plugin

/-- `Config.__set__`: always raises, for every written value. -/
def Config.set_descriptor (o : StraxOption) (_plugin : PluginInstance)
    (_value : Val) : Except ConfigError Unit :=
  Except.error (ConfigError.attributeError
    (o.name ++ " is a plugin configuration and cannot be set directly."))

/-- `old.copy()` followed by `.update(new)`: overlay every key of `new`, in
order, on top of `old`. -/
def dict_update (old : Dict) (new : Dict) : Dict :=
  new.foldl (fun c kv => dictSet c kv.1 kv.2) old

/-- Rank used only to justify the `setdefault → update` recursion of
`combine_configs`. -/
def combineModeRank (mode : String) : Nat :=
  if mode = "update" then 0 else 1

/-- `combine_configs(old_config, new_config, mode)`: a `None` new
configuration counts as empty; `"update"` overlays `new` on a copy of `old`;
`"setdefault"` recurses with the two dicts swapped and mode `"update"`;
`"replace"` returns `new` itself; any other mode raises. -/
def combine_configs (old_config : Dict) (new_config : Option Dict)
    (mode : String) : Except ConfigError Dict :=
  let nc : Dict := match new_config with | some d => d | none => []
  if h0 : mode = "update" then
    Except.ok (dict_update old_config nc)
  else if h1 : mode = "setdefault" then
    combine_configs nc (some old_config) "update"
  else if mode = "replace" then
    Except.ok nc
  else
    Except.error (ConfigError.runtimeError
      ("Expected update, setdefault or replace as config setting mode"))
termination_by combineModeRank mode
decreasing_by simp [combineModeRank, h0]

/-- `itertools.accumulate` on integer offsets: the running partial sums
(first element included, no initial value). -/
def accumulateFrom (acc : Nat) : List Nat → List Nat
  | [] => []
  | x :: xs => (acc + x) :: accumulateFrom (acc + x) xs

/-- `list(accumulate(xs))`. -/
def accumulate (xs : List Nat) : List Nat :=
  accumulateFrom 0 xs

/-- Python `sorted` on an integer list (a stable comparison sort). -/
def pySorted (l : List Nat) : List Nat :=
  List.insertionSort (· ≤ ·) l

/-- `iterutils.chunked(·, size=2)` followed by `tuple(q)` on each chunk, on
the even-length lists the preceding strategy filter allows. -/
def chunked2 : List Nat → List (Nat × Nat)
  | a :: b :: rest => (a, b) :: chunked2 rest
  | _ => []

/-- The order Python `sorted` uses on 2-tuples: lexicographic. -/
def pairLe (p q : Nat × Nat) : Prop :=
  p.1 < q.1 ∨ (p.1 = q.1 ∧ p.2 ≤ q.2)

instance : DecidableRel pairLe := fun p q =>
  inferInstanceAs (Decidable (p.1 < q.1 ∨ (p.1 = q.1 ∧ p.2 ≤ q.2)))

instance : IsTotal (Nat × Nat) pairLe where
  total p q := by
    unfold pairLe
    omega

instance : IsTrans (Nat × Nat) pairLe where
  trans p q r hpq hqr := by
    unfold pairLe at hpq hqr ⊢
    omega

/-- Python `sorted` on the list of bound tuples. -/
def pySortedPairs (l : List (Nat × Nat)) : List (Nat × Nat) :=
  List.insertionSort pairLe l

/-- The raw integer list of `sorted_bounds` after the optional cumulative
sum: the drawn offsets themselves, or their running sums when `disjoint` is
requested. -/
def sorted_bounds_raw (disjoint : Bool) (xs : List Nat) : List Nat :=
  if disjoint then accumulate xs else xs

/-- The bound tuples of `sorted_bounds` before the final sort: the raw list
sorted and paired into consecutive 2-tuples. -/
def sorted_bounds_pairs (disjoint : Bool) (xs : List Nat) :
    List (Nat × Nat) :=
  chunked2 (pySorted (sorted_bounds_raw disjoint xs))

/-- The value `sorted_bounds` yields for a drawn offset list that survives
its filters: the bound tuples, sorted. -/
def sorted_bounds_sample (disjoint : Bool) (xs : List Nat) :
    List (Nat × Nat) :=
  pySortedPairs (sorted_bounds_pairs disjoint xs)

/-- Whether a drawn offset list survives the filters of the strategy: the
(equal-length) raw list must have even length, no bound may be zero-length,
and under `remove_duplicates` no bound may repeat. -/
def sorted_bounds_survives (disjoint remove_duplicates : Bool)
    (xs : List Nat) : Bool :=
  (sorted_bounds_raw disjoint xs).length % 2 == 0
    && (sorted_bounds_pairs disjoint xs).all (fun a => a.1 != a.2)
    && (!remove_duplicates
        || decide ((sorted_bounds_pairs disjoint xs).Nodup))

/-! ## Concrete instances used by witnesses and counterexamples -/

/-- A plain option named `a` with static default `1`. -/
def optA1 : StraxOption := { name := "a", default := Val.int 1 }

/-- A second plain option also named `a`, with static default `2`. -/
def optA2 : StraxOption := { name := "a", default := Val.int 2 }

/-- A fresh plugin class with no `takes_config` attribute. -/
def freshClass : PluginClass := { name := "MyPlugin" }

/-- The class produced by `takes_config [optA1, optA2] freshClass`: no error,
the registry holds the *second* `a` option. -/
def freshClassAfter : PluginClass :=
  { name := "MyPlugin",
    takes_config :=
      some [("a", { name := "a", default := Val.int 2,
                    taken_by := "MyPlugin" })],
    attrs := [] }

/-- A plain option named `x` (first occurrence). -/
def optX1 : StraxOption := { name := "x", default := Val.int 1 }

/-- An attribute-bound `Config` option named `y`. -/
def cfgOptY : StraxOption :=
  { name := "y", default := Val.int 5, isConfig := true }

/-- A plain option named `x` (second occurrence). -/
def optX2 : StraxOption := { name := "x", default := Val.int 2 }

/-- An inherited option named `z`. -/
def optZ : StraxOption := { name := "z", default := Val.int 0,
                            taken_by := "Base" }

/-- A plugin class that already carries the non-empty inherited registry
`{z: optZ}`. -/
def classWithZ : PluginClass :=
  { name := "Child", takes_config := some [("z", optZ)] }

/-- `optX2` as stamped by registration on `classWithZ`. -/
def optX2c : StraxOption :=
  { name := "x", default := Val.int 2, taken_by := "Child" }

/-- `cfgOptY` as stamped by registration on `classWithZ`. -/
def cfgOptYc : StraxOption :=
  { name := "y", default := Val.int 5, taken_by := "Child",
    isConfig := true }

/-- The class produced by `takes_config [optX1, cfgOptY, optX2] classWithZ`:
the loop variable ends on `cfgOptYc` (the last *value* of the deduplicated
new-option dict), which is installed as a class attribute even though the
last option of the supplied sequence is the plain option `optX2`. -/
def classWithZAfter : PluginClass :=
  { name := "Child",
    takes_config := some [("z", optZ), ("x", optX2c), ("y", cfgOptYc)],
    attrs := [("y", cfgOptYc)] }

/-- An option whose whole default strategy is the example table from the spec
`[(0, "a"), (5, "b"), (10, "c")]`. -/
def optByRun : StraxOption :=
  { name := "bonus_area",
    default_by_run := DefaultByRun.table
      [(0, Val.str ("a")), (5, Val.str ("b")), (10, Val.str ("c"))],
    taken_by := "Peaks" }

/-- An option whose default table is the example from the spec `[(5, "x")]`. -/
def optByRunSmall : StraxOption :=
  { name := "bonus_area",
    default_by_run := DefaultByRun.table [(5, Val.str ("x"))],
    taken_by := "Peaks" }

/-- An option with a static default and a declared type that does not match
the value supplied for it in `mismatchConfig`. -/
def optTyped : StraxOption :=
  { name := "n_pmts", type := TypeSpec.ty PyType.intTy,
    default := Val.int 10 }

/-- A configuration supplying a string for the integer-typed `optTyped`. -/
def mismatchConfig : Dict := [("n_pmts", Val.str ("oops"))]

/-- An option with no default of any kind. -/
def optRequired : StraxOption :=
  { name := "context_option", taken_by := "ParentPlugin" }

/-- An option with a `default_factory`. -/
def optFactory : StraxOption :=
  { name := "made", default_factory := Factory.fn (fun _ => Val.int 42) }

/-! ## Helper lemmas -/

theorem dictGet_eq_none_of_forall {α : Type} {d : List (String × α)}
    {k : String} (h : ∀ kv ∈ d, kv.1 ≠ k) : dictGet d k = none := by
  induction d with
  | nil => rfl
  | cons kv rest ih =>
      simp only [dictGet]
      rw [if_neg (h kv (by simp))]
      exact ih (fun kv2 h2 => h kv2 (by simp [h2]))

theorem dictGet_dictSet {α : Type} (d : List (String × α)) (k : String)
    (v : α) (k2 : String) :
    dictGet (dictSet d k v) k2 = if k = k2 then some v else dictGet d k2 := by
  induction d with
  | nil => simp [dictGet, dictSet]
  | cons kv rest ih =>
      simp only [dictSet, dictGet]
      by_cases h : kv.1 = k
      · simp only [if_pos h, dictGet]
        by_cases h2 : k = k2
        · simp [h2]
        · have hk2 : ¬ kv.1 = k2 := by rw [h]; exact h2
          simp [h2, hk2]
      · simp only [if_neg h, dictGet]
        by_cases h2 : kv.1 = k2
        · have hk2 : ¬ k = k2 := by
            intro hk
            exact h (by rw [hk, h2])
          simp [h2, hk2]
        · simp [h2, ih]

theorem dictGet_dict_update (old new : Dict)
    (hnew : new.Pairwise (fun a b => a.1 ≠ b.1)) (k : String) :
    dictGet (dict_update old new) k = (dictGet new k).or (dictGet old k) := by
  induction new generalizing old with
  | nil => simp [dict_update, dictGet, Option.or]
  | cons kv rest ih =>
      obtain ⟨hhead, htail⟩ := List.pairwise_cons.mp hnew
      show dictGet (dict_update (dictSet old kv.1 kv.2) rest) k = _
      rw [ih _ htail]
      by_cases h : kv.1 = k
      · have hrest : dictGet rest k = none := by
          apply dictGet_eq_none_of_forall
          intro kv2 h2
          rw [← h]
          exact fun he => (hhead kv2 h2) he.symm
        simp [dictGet, h, hrest, dictGet_dictSet, Option.or]
      · simp [dictGet, h, dictGet_dictSet, Option.or]

theorem lookupByRunAux_eq (t : List (Int × Val)) (rid : Int)
    (hasc : t.Pairwise (fun a b => a.1 ≤ b.1)) (acc : Val) :
    lookupByRunAux acc t rid =
      ((t.filter (fun p => p.1 ≤ rid)).map Prod.snd).getLastD acc := by
  induction t generalizing acc with
  | nil => simp [lookupByRunAux]
  | cons p rest ih =>
      obtain ⟨hhead, htail⟩ := List.pairwise_cons.mp hasc
      by_cases hp : p.1 > rid
      · have hrest : rest.filter (fun q => decide (q.1 ≤ rid)) = [] := by
          rw [List.filter_eq_nil_iff]
          intro q hq
          have := hhead q hq
          simp only [decide_eq_true_eq]
          omega
        have hphead : ¬ (p.1 ≤ rid) := by omega
        simp [lookupByRunAux, if_pos hp, List.filter, hphead, hrest]
      · have hple : p.1 ≤ rid := by omega
        simp only [lookupByRunAux, if_neg hp, List.filter_cons,
          decide_eq_true_eq]
        rw [if_pos hple, ih htail, List.map_cons, List.getLastD_cons]

theorem dictGet_isSome_of_mem {α : Type} {d : List (String × α)}
    {kv : String × α} (h : kv ∈ d) : (dictGet d kv.1).isSome = true := by
  induction d with
  | nil => cases h
  | cons a tl ih =>
      simp only [dictGet]
      by_cases ha : a.1 = kv.1
      · simp [ha]
      · rcases List.mem_cons.mp h with rfl | hm
        · exact absurd rfl ha
        · simp [ha, ih hm]

theorem mem_chunked2 (l : List Nat) (p : Nat × Nat) (hp : p ∈ chunked2 l) :
    p.1 ∈ l ∧ p.2 ∈ l := by
  induction l using chunked2.induct with
  | case1 a b rest ih =>
      simp only [chunked2, List.mem_cons] at hp
      rcases hp with rfl | hp
      · simp
      · obtain ⟨h1, h2⟩ := ih hp
        constructor <;> simp [h1, h2]
  | case2 l hl =>
      simp only [chunked2] at hp
      cases hp

theorem chunked2_of_sorted (l : List Nat) (hs : l.Pairwise (· ≤ ·)) :
    (∀ p ∈ chunked2 l, p.1 ≤ p.2) ∧
      (chunked2 l).Pairwise (fun p q => p.2 ≤ q.1) := by
  induction l using chunked2.induct with
  | case1 a b rest ih =>
      obtain ⟨ha, hs1⟩ := List.pairwise_cons.mp hs
      obtain ⟨hb, hs2⟩ := List.pairwise_cons.mp hs1
      obtain ⟨ihmem, ihpair⟩ := ih hs2
      constructor
      · intro p hp
        simp only [chunked2, List.mem_cons] at hp
        rcases hp with rfl | hp
        · exact ha b (by simp)
        · exact ihmem p hp
      · simp only [chunked2]
        refine List.pairwise_cons.mpr ⟨?_, ihpair⟩
        intro q hq
        exact hb q.1 (mem_chunked2 rest q hq).1
  | case2 l hl =>
      simp [chunked2.eq_def]

theorem dictSet_ne_nil {α : Type} (d : List (String × α)) (k : String)
    (v : α) : dictSet d k v ≠ [] := by
  cases d with
  | nil => simp [dictSet]
  | cons kv rest =>
      simp only [dictSet]
      split <;> simp

theorem declared_registry_ne_nil (o0 : StraxOption)
    (rest : List StraxOption) (n : String) :
    declared_registry (o0 :: rest) n ≠ [] := by
  have main : ∀ (opts : List StraxOption) (d : Registry), d ≠ [] →
      opts.foldl
        (fun r opt => dictSet r opt.name { opt with taken_by := n }) d
        ≠ [] := by
    intro opts
    induction opts with
    | nil => intro d hd; exact hd
    | cons o os ih =>
        intro d _
        exact ih _ (dictSet_ne_nil _ _ _)
  exact main rest _ (dictSet_ne_nil _ _ _)

theorem takes_config_finish_attrs (pc : PluginClass) (r : Registry)
    (o : StraxOption) :
    (takes_config_finish pc r o).attrs =
      (if o.isConfig then dictSet pc.attrs o.name o else pc.attrs) := by
  simp only [takes_config_finish]
  split <;> rfl

/-! ## Claim theorems -/

/-- C1: `Option.get_default(run_id, run_defaults)` follows the strict
priority order: a run-defaults entry for the name of the option wins (even over a
set static default); else a set static default is returned; else a set
`default_factory` is invoked and its result returned; else a set
`default_by_run` is resolved by the legacy per-run mechanism
(`default_by_run_resolve`); else an `InvalidConfiguration` error is raised
whose message names the option and the plugin in `taken_by`. -/
theorem C1_get_default_priority (o : StraxOption) (run_id : RunId)
    (run_defaults : Option Dict) :
    (∀ v, rdLookup run_defaults o.name = some v →
        o.get_default run_id run_defaults = Except.ok v) ∧
    (rdLookup run_defaults o.name = none → o.default ≠ Val.omitted →
        o.get_default run_id run_defaults = Except.ok o.default) ∧
    (∀ f, rdLookup run_defaults o.name = none → o.default = Val.omitted →
        o.default_factory = Factory.fn f →
        o.get_default run_id run_defaults = Except.ok (f ())) ∧
    (rdLookup run_defaults o.name = none → o.default = Val.omitted →
        o.default_factory = Factory.omitted →
        o.default_by_run ≠ DefaultByRun.omitted →
        o.get_default run_id run_defaults = default_by_run_resolve o run_id) ∧
    (rdLookup run_defaults o.name = none → o.default = Val.omitted →
        o.default_factory = Factory.omitted →
        o.default_by_run = DefaultByRun.omitted →
        o.get_default run_id run_defaults =
          Except.error (ConfigError.invalidConfiguration
            (missingOptionMsg o.name o.taken_by))) := by
  refine ⟨?_, ?_, ?_, ?_, ?_⟩
  · intro v hv
    simp [StraxOption.get_default, hv]
  · intro hrd hdef
    simp [StraxOption.get_default, hrd, hdef]
  · intro f hrd hdef hfac
    simp [StraxOption.get_default, hrd, hdef, hfac]
  · intro hrd hdef hfac _
    simp [StraxOption.get_default, hrd, hdef, hfac]
  · intro hrd hdef hfac hbr
    simp [StraxOption.get_default, hrd, hdef, hfac,
      default_by_run_resolve, hbr]

/-- Witness for C1: each branch of the priority order evaluated at a
concrete option. -/
theorem C1_get_default_priority_witness :
    ({ optA1 with default := Val.int 1 } :
        StraxOption).get_default RunId.pynone (some [("a", Val.int 9)]) =
      Except.ok (Val.int 9) ∧
    optA1.get_default RunId.pynone none = Except.ok (Val.int 1) ∧
    optFactory.get_default RunId.pynone none = Except.ok (Val.int 42) ∧
    optByRun.get_default (RunId.int 3) none =
      default_by_run_resolve optByRun (RunId.int 3) ∧
    optRequired.get_default RunId.pynone none =
      Except.error (ConfigError.invalidConfiguration
        (missingOptionMsg ("context_option") "ParentPlugin")) := by
  refine ⟨?_, ?_, ?_, ?_, ?_⟩
  · exact (C1_get_default_priority _ RunId.pynone
      (some [("a", Val.int 9)])).1 (Val.int 9) rfl
  · exact (C1_get_default_priority optA1 RunId.pynone none).2.1 rfl
      (by decide)
  · exact (C1_get_default_priority optFactory RunId.pynone none).2.2.1
      (fun _ => Val.int 42) rfl rfl rfl
  · exact (C1_get_default_priority optByRun (RunId.int 3) none).2.2.2.1 rfl
      rfl rfl (by simp [optByRun])
  · exact (C1_get_default_priority optRequired RunId.pynone none).2.2.2.2
      rfl rfl rfl rfl

/-- C2: for an option whose only default strategy is a non-callable
`default_by_run` table in ascending run-id order, `get_default` on a string
run id with a leading underscore returns exactly
`"<SUBRUN-DEPENDENT:" ++ deterministic_hash t ++ ">"`; on an ordinary run id
it returns the value of the last pair whose `first_run_id` is ≤ the run id;
and when the run id is below the smallest `first_run_id` (the applicable
prefix is empty) it raises the unresolvable-default `ValueError`. -/
theorem C2_default_by_run (o : StraxOption) (t : List (Int × Val))
    (run_defaults : Option Dict)
    (hrd : rdLookup run_defaults o.name = none)
    (hdef : o.default = Val.omitted)
    (hfac : o.default_factory = Factory.omitted)
    (htab : o.default_by_run = DefaultByRun.table t)
    (hasc : t.Pairwise (fun a b => a.1 ≤ b.1))
    (hvals : ∀ p ∈ t, p.2 ≠ Val.omitted) :
    (∀ s : String, startsWithUnderscore s = true →
        o.get_default (RunId.str s) run_defaults =
          Except.ok (Val.str
            ("<SUBRUN-DEPENDENT:" ++ deterministic_hash t ++ ">"))) ∧
    (∀ (run_id : RunId) (rid : Int),
        parse_run_id run_id = Except.ok (rid, false) →
        (∀ v, ((t.filter (fun p => p.1 ≤ rid)).map Prod.snd).getLast? =
              some v →
            o.get_default run_id run_defaults = Except.ok v) ∧
        (t.filter (fun p => p.1 ≤ rid) = [] →
            o.get_default run_id run_defaults =
              Except.error (ConfigError.valueError (byRunErrMsg rid)))) := by
  have hres : ∀ run_id, o.get_default run_id run_defaults =
      default_by_run_resolve o run_id := by
    intro run_id
    simp [StraxOption.get_default, hrd, hdef, hfac]
  constructor
  · intro s hs
    rw [hres]
    simp [default_by_run_resolve, htab, parse_run_id, hs]
  · intro run_id rid hparse
    constructor
    · intro v hv
      rw [hres]
      simp only [default_by_run_resolve, htab, hparse]
      rw [lookupByRunAux_eq t rid hasc]
      have hmem : v ∈ (t.filter (fun p => p.1 ≤ rid)).map Prod.snd :=
        List.mem_of_mem_getLast? hv
      have hvne : v ≠ Val.omitted := by
        obtain ⟨p, hp, rfl⟩ := List.mem_map.mp hmem
        exact hvals p (List.mem_of_mem_filter hp)
      rw [List.getLastD_eq_getLast?, hv]
      simp [hvne]
    · intro hempty
      rw [hres]
      simp only [default_by_run_resolve, htab, hparse]
      rw [lookupByRunAux_eq t rid hasc, hempty]
      simp

/-- Witness for C2: the example table from the spec, `[(0,"a"),(5,"b"),(10,"c")]`
resolved at runs 3, 7 and 10 and at a super-run id, and the table `[(5,"x")]`
failing at run 2. -/
theorem C2_default_by_run_witness :
    optByRun.get_default (RunId.str ("_sr")) none =
      Except.ok (Val.str ("<SUBRUN-DEPENDENT:"
        ++ deterministic_hash
            [(0, Val.str ("a")), (5, Val.str ("b")), (10, Val.str ("c"))]
        ++ ">")) ∧
    optByRun.get_default (RunId.int 3) none = Except.ok (Val.str ("a")) ∧
    optByRun.get_default (RunId.str ("7")) none = Except.ok (Val.str ("b")) ∧
    optByRun.get_default (RunId.int 10) none = Except.ok (Val.str ("c")) ∧
    optByRunSmall.get_default (RunId.int 2) none =
      Except.error (ConfigError.valueError (byRunErrMsg 2)) := by
  have h1 := C2_default_by_run optByRun
    [(0, Val.str ("a")), (5, Val.str ("b")), (10, Val.str ("c"))] none rfl rfl rfl
    rfl (by decide) (by decide)
  have h2 := C2_default_by_run optByRunSmall [(5, Val.str ("x"))] none rfl rfl
    rfl rfl (by decide) (by decide)
  refine ⟨?_, ?_, ?_, ?_, ?_⟩
  · exact h1.1 ("_sr") rfl
  · exact (h1.2 (RunId.int 3) 3 rfl).1 (Val.str ("a")) (by decide)
  · exact (h1.2 (RunId.str ("7")) 7 (by simp [parse_run_id, startsWithUnderscore, stripUnderscores, pyInt, parseDigits, digitsValAux])).1 (Val.str ("b")) (by decide)
  · exact (h1.2 (RunId.int 10) 10 rfl).1 (Val.str ("c")) (by decide)
  · exact (h2.2 (RunId.int 2) 2 rfl).2 (by decide)

/-- C3 counterexample: two Option arguments of one `takes_config` call
sharing the name `a` do NOT raise — the registry dict silently keeps the
second one — refuting the claim that a same-call duplicate raises the
"Attempt to specify option ... twice" error. -/
theorem C3_counterexample :
    optA1.name = optA2.name ∧
    takes_config [optA1, optA2] freshClass = Except.ok freshClassAfter := by
  exact ⟨rfl, rfl⟩

/-- C3 (amended): a same-call duplicate name is silently collapsed (last
option wins, no error); the decorator raises the "Attempt to specify option
`n` twice" error exactly when a newly declared name collides with a
non-empty registry inherited on the class; and in the non-colliding case the
stored registry is the union of the inherited registry and the (collapsed)
newly declared options. -/
theorem C3_registry_merge (options : List StraxOption) (pc : PluginClass)
    (old : Registry) (hold : pc.takes_config = some old) :
    ((∃ kv ∈ declared_registry options pc.name,
        (dictGet old kv.1).isSome = true) →
      ∃ n, (dictGet old n).isSome = true ∧
        (dictGet (declared_registry options pc.name) n).isSome = true ∧
        takes_config options pc =
          Except.error (ConfigError.runtimeError
            ("Attempt to specify option " ++ n ++ " twice"))) ∧
    (options ≠ [] →
      (∀ kv ∈ declared_registry options pc.name, dictGet old kv.1 = none) →
      ∃ pc2, takes_config options pc = Except.ok pc2 ∧
        pc2.takes_config =
          some (old ++ declared_registry options pc.name)) := by
  constructor
  · rintro ⟨kv, hkvmem, hkvcoll⟩
    match options with
    | [] =>
        simp [declared_registry] at hkvmem
    | o0 :: rest =>
        have hfind : ((declared_registry (o0 :: rest) pc.name).find?
            (fun kv => (dictGet old kv.1).isSome)).isSome = true := by
          rw [List.find?_isSome]
          exact ⟨kv, hkvmem, hkvcoll⟩
        obtain ⟨kv0, hkv0⟩ := Option.isSome_iff_exists.mp hfind
        have hp0 := List.find?_some hkv0
        have holdlen : old.length > 0 := by
          cases old with
          | nil => simp [dictGet] at hp0
          | cons a tl => simp
        have hm := List.mem_of_find?_eq_some hkv0
        refine ⟨kv0.1, hp0, dictGet_isSome_of_mem hm, ?_⟩
        simp only [takes_config, hold]
        rw [if_pos holdlen, hkv0]
  · intro hne hnocoll
    match options with
    | [] => exact absurd rfl hne
    | o0 :: rest =>
        have hfind : (declared_registry (o0 :: rest) pc.name).find?
            (fun kv => (dictGet old kv.1).isSome) = none := by
          rw [List.find?_eq_none]
          intro kv hkv
          simp [hnocoll kv hkv]
        simp only [takes_config, hold]
        by_cases holdlen : old.length > 0
        · rw [if_pos holdlen, hfind]
          refine ⟨_, rfl, ?_⟩
          simp [takes_config_finish]
          split <;> rfl
        · have : old = [] := by
            cases old with
            | nil => rfl
            | cons a tl => simp at holdlen
          subst this
          rw [if_neg holdlen]
          refine ⟨_, rfl, ?_⟩
          simp [takes_config_finish]
          split <;> rfl

/-- Witness for C3 (amended): re-declaring the inherited name `z` on
`classWithZ` raises; declaring the fresh name `a` stores the union. -/
theorem C3_registry_merge_witness :
    (∃ n, (dictGet ([("z", optZ)] : Registry) n).isSome = true ∧
      (dictGet (declared_registry [optZ] (classWithZ.name)) n).isSome
        = true ∧
      takes_config [optZ] classWithZ =
        Except.error (ConfigError.runtimeError
          ("Attempt to specify option " ++ n ++ " twice"))) ∧
    (∃ pc2, takes_config [optA1] classWithZ = Except.ok pc2 ∧
      pc2.takes_config =
        some (([("z", optZ)] : Registry) ++
          declared_registry [optA1] (classWithZ.name))) := by
  constructor
  · exact (C3_registry_merge [optZ] classWithZ [("z", optZ)] rfl).1
      ⟨("z", { optZ with taken_by := "Child" }),
        by simp [declared_registry, dictSet, classWithZ, optZ],
        by simp [dictGet]⟩
  · refine (C3_registry_merge [optA1] classWithZ [("z", optZ)] rfl).2
      (by simp) ?_
    intro kv hkv
    simp [declared_registry, dictSet, classWithZ, optA1] at hkv
    rw [hkv]
    rfl

/-- C4: when the name of the option is present in the configuration, `validate`
returns it unchanged (the type check only constructs a warning object, a
no-op, so no hypothesis on the declared type is needed); when absent with
`set_defaults` true it inserts exactly `get_default(run_id, run_defaults)`
under the name of the option, changing no other key; when absent with
`set_defaults` false it leaves the configuration unchanged. -/
theorem C4_validate (o : StraxOption) (config : Dict) (run_id : RunId)
    (run_defaults : Option Dict) :
    (∀ v sd, dictGet config o.name = some v →
        o.validate config run_id run_defaults sd = Except.ok config) ∧
    (dictGet config o.name = none →
        (∀ v, o.get_default run_id run_defaults = Except.ok v →
            o.validate config run_id run_defaults true =
              Except.ok (dictSet config o.name v) ∧
            dictGet (dictSet config o.name v) o.name = some v ∧
            (∀ k, k ≠ o.name →
                dictGet (dictSet config o.name v) k = dictGet config k)) ∧
        o.validate config run_id run_defaults false = Except.ok config) := by
  constructor
  · intro v sd hv
    simp [StraxOption.validate, hv]
  · intro habs
    constructor
    · intro v hv
      refine ⟨by simp [StraxOption.validate, habs, hv], ?_, ?_⟩
      · rw [dictGet_dictSet]
        simp
      · intro k hk
        rw [dictGet_dictSet]
        exact if_neg (fun h => hk h.symm)
    · simp [StraxOption.validate, habs]

/-- Witness for C4: a supplied value of the wrong runtime type is accepted
unchanged; a missing value is filled in from the static default. -/
theorem C4_validate_witness :
    isinstanceSpec (Val.str ("oops")) optTyped.type = false ∧
    optTyped.validate mismatchConfig RunId.pynone none true =
      Except.ok mismatchConfig ∧
    optTyped.validate [] RunId.pynone none true =
      Except.ok [("n_pmts", Val.int 10)] ∧
    optTyped.validate [] RunId.pynone none false = Except.ok [] := by
  refine ⟨rfl, ?_, ?_, ?_⟩
  · exact (C4_validate optTyped mismatchConfig RunId.pynone none).1
      (Val.str ("oops")) true rfl
  · exact (((C4_validate optTyped [] RunId.pynone none).2 rfl).1
      (Val.int 10) rfl).1
  · exact ((C4_validate optTyped [] RunId.pynone none).2 rfl).2

/-- C5: `combine_configs` with mode `update` returns `old` with `new`
overlaid (new wins), with `setdefault` returns `new` with `old` overlaid
(old wins), with `replace` returns the `new` mapping itself, and with any
other mode raises; the inputs are never modified (the result is built from a
copy, which the pure embedding renders by returning fresh values). -/
theorem C5_combine_configs (old new : Dict) (mode : String)
    (hnew : new.Pairwise (fun a b => a.1 ≠ b.1))
    (hold : old.Pairwise (fun a b => a.1 ≠ b.1)) :
    (∃ c, combine_configs old (some new) "update" = Except.ok c ∧
        ∀ k, dictGet c k = (dictGet new k).or (dictGet old k)) ∧
    (∃ c, combine_configs old (some new) "setdefault" = Except.ok c ∧
        ∀ k, dictGet c k = (dictGet old k).or (dictGet new k)) ∧
    combine_configs old (some new) "replace" = Except.ok new ∧
    (mode ≠ "update" → mode ≠ "setdefault" → mode ≠ "replace" →
        combine_configs old (some new) mode =
          Except.error (ConfigError.runtimeError
            ("Expected update, setdefault or replace as config setting"
              ++ " mode"))) := by
  refine ⟨?_, ?_, ?_, ?_⟩
  · refine ⟨dict_update old new, ?_, fun k => dictGet_dict_update old new hnew k⟩
    rw [combine_configs]
    simp
  · refine ⟨dict_update new old, ?_, fun k => dictGet_dict_update new old hold k⟩
    rw [combine_configs, combine_configs]
    simp
  · rw [combine_configs]
    simp
  · intro h1 h2 h3
    rw [combine_configs]
    simp [h1, h2, h3]

/-- Witness for C5: the worked example from the spec,
`old = {a:1, b:2}`, `new = {b:3, c:4}`. -/
theorem C5_combine_configs_witness :
    (∃ c, combine_configs [("a", Val.int 1), ("b", Val.int 2)]
        (some [("b", Val.int 3), ("c", Val.int 4)]) "update" =
          Except.ok c ∧
        ∀ k, dictGet c k =
          (dictGet ([("b", Val.int 3), ("c", Val.int 4)] : Dict) k).or
            (dictGet ([("a", Val.int 1), ("b", Val.int 2)] : Dict) k)) ∧
    combine_configs [("a", Val.int 1), ("b", Val.int 2)]
        (some [("b", Val.int 3), ("c", Val.int 4)]) "replace" =
      Except.ok [("b", Val.int 3), ("c", Val.int 4)] ∧
    combine_configs [("a", Val.int 1), ("b", Val.int 2)]
        (some [("b", Val.int 3), ("c", Val.int 4)]) "bogus" =
      Except.error (ConfigError.runtimeError
        ("Expected update, setdefault or replace as config setting"
          ++ " mode")) := by
  have h := C5_combine_configs [("a", Val.int 1), ("b", Val.int 2)]
    [("b", Val.int 3), ("c", Val.int 4)] "bogus"
    (by simp) (by simp)
  exact ⟨h.1, h.2.2.1, h.2.2.2 (by decide) (by decide) (by decide)⟩

/-- C6: `Option.__init__` raises when more than one of `default`,
`default_factory`, `default_by_run` differs from the `OMITTED` sentinel, and
raises when exactly one of `child_option` / a truthy `parent_option_name` is
supplied without the other; when neither condition holds, construction
succeeds. -/
theorem C6_mk_option (name : String) (type : TypeSpec) (default : Val)
    (default_factory : Factory) (default_by_run : DefaultByRun)
    (child_option : Bool) (parent_option_name : Option String)
    (track infer_type : Bool) (help : String) :
    ((child_option = true ∧ pyTruthyStr parent_option_name = false) ∨
        (child_option = false ∧ pyTruthyStr parent_option_name = true) →
      mk_option name type default default_factory default_by_run
          child_option parent_option_name track infer_type help =
        Except.error (ConfigError.valueError (childParentMsg name))) ∧
    (1 < countDefaults
        { name := name, type := type, default := default,
          default_factory := default_factory,
          default_by_run := default_by_run, child_option := child_option,
          parent_option_name := parent_option_name, track := track,
          help := help } →
      (mk_option name type default default_factory default_by_run
          child_option parent_option_name track infer_type help).isOk
        = false) ∧
    (child_option = pyTruthyStr parent_option_name →
      countDefaults
          { name := name, type := type, default := default,
            default_factory := default_factory,
            default_by_run := default_by_run, child_option := child_option,
            parent_option_name := parent_option_name, track := track,
            help := help } ≤ 1 →
      (mk_option name type default default_factory default_by_run
          child_option parent_option_name track infer_type help).isOk
        = true) := by
  refine ⟨?_, ?_, ?_⟩
  · rintro (⟨hc, hp⟩ | ⟨hc, hp⟩) <;>
      simp [mk_option, hc, hp]
  · intro hcount
    by_cases hxor : (child_option && !pyTruthyStr parent_option_name)
        || (!child_option && pyTruthyStr parent_option_name)
    · simp only [mk_option]
      rw [if_pos hxor]
      rfl
    · simp only [mk_option]
      rw [if_neg (by simpa using hxor), if_pos hcount]
      rfl
  · intro heq hcount
    have hxor : ((child_option && !pyTruthyStr parent_option_name)
        || (!child_option && pyTruthyStr parent_option_name)) = false := by
      rw [heq]
      cases pyTruthyStr parent_option_name <;> rfl
    simp only [mk_option]
    rw [if_neg (by simp [hxor]), if_neg (by omega)]
    rfl

/-- Witness for C6: a double default is rejected, an inconsistent child
declaration is rejected, and a plain declaration succeeds. -/
theorem C6_mk_option_witness :
    mk_option ("o1") TypeSpec.omitted Val.omitted Factory.omitted
        DefaultByRun.omitted true none true false ("") =
      Except.error (ConfigError.valueError (childParentMsg ("o1"))) ∧
    (mk_option ("o2") TypeSpec.omitted (Val.int 1) Factory.omitted
        (DefaultByRun.table [(0, Val.int 2)]) false none true false
        ("")).isOk = false ∧
    (mk_option ("o3") TypeSpec.omitted (Val.int 1) Factory.omitted
        DefaultByRun.omitted false none true false ("")).isOk = true := by
  refine ⟨?_, ?_, ?_⟩
  · exact (C6_mk_option ("o1") TypeSpec.omitted Val.omitted Factory.omitted
      DefaultByRun.omitted true none true false ("")).1 (Or.inl ⟨rfl, rfl⟩)
  · exact (C6_mk_option ("o2") TypeSpec.omitted (Val.int 1) Factory.omitted
      (DefaultByRun.table [(0, Val.int 2)]) false none true false ("")).2.1
      (by decide)
  · exact (C6_mk_option ("o3") TypeSpec.omitted (Val.int 1) Factory.omitted
      DefaultByRun.omitted false none true false ("")).2.2 rfl (by decide)

/-- C7: reading an attribute-bound option from a plugin instance raises when
the plugin has no configuration mapping, returns the value of the mapping at the
name of the option when present, and `get_default(plugin.run_id)` when absent;
writing the attribute always raises the "cannot be set directly" error,
leaving all state unchanged. -/
theorem C7_config_descriptor (o : StraxOption) (p : PluginInstance) :
    (p.config = none →
        Config.get_descriptor o p =
          Except.error (ConfigError.attributeError
            ("Plugin has not been configured."))) ∧
    (∀ cfg v, p.config = some cfg → dictGet cfg o.name = some v →
        Config.get_descriptor o p = Except.ok v) ∧
    (∀ cfg, p.config = some cfg → dictGet cfg o.name = none →
        Config.get_descriptor o p = o.get_default p.run_id none) ∧
    (∀ v, Config.set_descriptor o p v =
        Except.error (ConfigError.attributeError
          (o.name ++ " is a plugin configuration and cannot be set directly."))) := by
  refine ⟨?_, ?_, ?_, ?_⟩
  · intro h
    simp [Config.get_descriptor, Config.fetch, h]
  · intro cfg v hc hv
    simp [Config.get_descriptor, Config.fetch, hc, hv]
  · intro cfg hc hv
    simp [Config.get_descriptor, Config.fetch, hc, hv]
  · intro v
    rfl

/-- Witness for C7: the attribute-bound option `cfgOptY` read from an
unconfigured plugin, a configured plugin with and without the key, and
written to. -/
theorem C7_config_descriptor_witness :
    Config.get_descriptor cfgOptY { config := none, run_id := RunId.pynone } =
      Except.error (ConfigError.attributeError
        ("Plugin has not been configured.")) ∧
    Config.get_descriptor cfgOptY
        { config := some [("y", Val.int 7)], run_id := RunId.pynone } =
      Except.ok (Val.int 7) ∧
    Config.get_descriptor cfgOptY
        { config := some [], run_id := RunId.pynone } =
      cfgOptY.get_default RunId.pynone none ∧
    Config.set_descriptor cfgOptY
        { config := some [], run_id := RunId.pynone } (Val.int 3) =
      Except.error (ConfigError.attributeError
        ("y is a plugin configuration and cannot be set directly.")) := by
  refine ⟨?_, ?_, ?_, ?_⟩
  · exact (C7_config_descriptor cfgOptY _).1 rfl
  · exact (C7_config_descriptor cfgOptY _).2.1 [("y", Val.int 7)]
      (Val.int 7) rfl rfl
  · exact (C7_config_descriptor cfgOptY _).2.2.1 [] rfl rfl
  · exact (C7_config_descriptor cfgOptY _).2.2.2 (Val.int 3)

/-- C8 counterexample: with a non-empty inherited registry and a repeated
name in the call, the option checked for attribute installation is not the
last of the supplied sequence: the last option `optX2` is a plain Option,
yet the earlier attribute-bound `cfgOptY` gets installed as a class
attribute. -/
theorem C8_counterexample :
    [optX1, cfgOptY, optX2].getLastD optX1 = optX2 ∧
    optX2.isConfig = false ∧
    cfgOptY.isConfig = true ∧
    takes_config [optX1, cfgOptY, optX2] classWithZ =
      Except.ok classWithZAfter ∧
    dictGet classWithZAfter.attrs ("y") = some cfgOptYc ∧
    classWithZ.attrs = [] := by
  exact ⟨rfl, rfl, rfl, rfl, rfl, rfl⟩

/-- C8 (amended): the decorator checks exactly one option for attribute
installation, namely the one left in the loop variable: the last option of
the supplied sequence when the class carries no non-empty inherited
registry, and the last value of the name-deduplicated new-option dict when
it does (these differ only when the call repeats an option name); the
attributes of the class change iff that option is an attribute-bound `Config`,
and then only by installing it under its name. -/
theorem C8_attr_install (o0 : StraxOption) (rest : List StraxOption)
    (pc pc2 : PluginClass)
    (hok : takes_config (o0 :: rest) pc = Except.ok pc2) :
    ∃ fin : StraxOption,
      ((pc.takes_config = none ∨ pc.takes_config = some []) →
        fin = { rest.getLastD o0 with taken_by := pc.name }) ∧
      (∀ old, pc.takes_config = some old → old ≠ [] →
        ∃ kvlast,
          (declared_registry (o0 :: rest) pc.name).getLast? = some kvlast ∧
          fin = kvlast.2) ∧
      pc2.attrs =
        (if fin.isConfig then dictSet pc.attrs fin.name fin
         else pc.attrs) := by
  cases htc : pc.takes_config with
  | none =>
      simp only [takes_config, htc] at hok
      refine ⟨{ rest.getLastD o0 with taken_by := pc.name }, fun _ => rfl,
        ?_, ?_⟩
      · intro old hold
        cases hold
      · rw [← (Except.ok.inj hok)]
        exact takes_config_finish_attrs pc _ _
  | some old =>
      simp only [takes_config, htc] at hok
      by_cases hlen : old.length > 0
      · rw [if_pos hlen] at hok
        cases hfind : (declared_registry (o0 :: rest) pc.name).find?
            (fun kv => (dictGet old kv.1).isSome) with
        | some kv => rw [hfind] at hok; cases hok
        | none =>
            rw [hfind] at hok
            have hne := declared_registry_ne_nil o0 rest pc.name
            obtain ⟨kvlast, hkvlast⟩ :=
              Option.isSome_iff_exists.mp (by
                rw [List.getLast?_isSome]
                exact hne)
            refine ⟨kvlast.2, ?_, ?_, ?_⟩
            · intro hnone
              rcases hnone with h | h
              · cases h
              · have : old = [] := by injection h
                rw [this] at hlen
                simp at hlen
            · intro old2 hold2 _
              refine ⟨kvlast, hkvlast, rfl⟩
            · rw [← (Except.ok.inj hok)]
              rw [takes_config_finish_attrs]
              simp only [List.getLastD_eq_getLast?, hkvlast,
                Option.getD_some]
      · rw [if_neg hlen] at hok
        have hold_nil : old = [] := by
          cases old with
          | nil => rfl
          | cons a tl => simp at hlen
        refine ⟨{ rest.getLastD o0 with taken_by := pc.name }, fun _ => rfl,
          ?_, ?_⟩
        · intro old2 hold2 hne2
          have : old2 = old := by injection hold2 with h; exact h.symm
          rw [this, hold_nil] at hne2
          exact absurd rfl hne2
        · rw [← (Except.ok.inj hok)]
          exact takes_config_finish_attrs pc _ _

/-- Witness for C8 (amended): the fresh-class application
`takes_config [optA1, optA2] freshClass` has its attribute change governed
by a single final option. -/
theorem C8_attr_install_witness :
    ∃ fin : StraxOption,
      freshClassAfter.attrs =
        (if fin.isConfig then dictSet freshClass.attrs fin.name fin
         else freshClass.attrs) := by
  obtain ⟨fin, _, _, hattrs⟩ :=
    C8_attr_install optA1 [optA2] freshClass freshClassAfter rfl
  exact ⟨fin, hattrs⟩

/-- C9: for every drawn offset list allowed by `sorted_bounds` with
`disjoint = true` (values bounded by the pre-divided maximum, at most 20
offsets, even length, no zero-length bound), the yielded sample is a
lexicographically sorted list of bounds `(left, right)` with `left < right`
whose half-open ranges are pairwise non-overlapping. -/
theorem C9_sorted_bounds_disjoint (xs : List Nat)
    (hdraw : ∀ x ∈ xs, x ≤ 5) (hlen : xs.length ≤ 20)
    (hsurv : sorted_bounds_survives true false xs = true) :
    (∀ p ∈ sorted_bounds_sample true xs, p.1 < p.2) ∧
    (sorted_bounds_sample true xs).Pairwise pairLe ∧
    (sorted_bounds_sample true xs).Pairwise (fun p q => p.2 ≤ q.1) := by
  have hs : (pySorted (sorted_bounds_raw true xs)).Pairwise (· ≤ ·) :=
    List.sorted_insertionSort (· ≤ ·) (sorted_bounds_raw true xs)
  obtain ⟨hmem, hpair⟩ :=
    chunked2_of_sorted (pySorted (sorted_bounds_raw true xs)) hs
  have hne : ∀ p ∈ sorted_bounds_pairs true xs, p.1 ≠ p.2 := by
    intro p hp
    simp only [sorted_bounds_survives, Bool.and_eq_true] at hsurv
    have := List.all_eq_true.mp hsurv.1.2 p hp
    simpa using this
  have hlt : ∀ p ∈ sorted_bounds_pairs true xs, p.1 < p.2 := by
    intro p hp
    exact lt_of_le_of_ne (hmem p hp) (hne p hp)
  have hsortedLex : (sorted_bounds_pairs true xs).Pairwise pairLe := by
    refine hpair.imp_of_mem ?_
    intro a b ha _ h
    exact Or.inl (lt_of_lt_of_le (hlt a ha) h)
  have heq : sorted_bounds_sample true xs = sorted_bounds_pairs true xs :=
    List.Sorted.insertionSort_eq hsortedLex
  rw [heq]
  exact ⟨hlt, hsortedLex, hpair⟩

/-- Witness for C9: the drawn offsets `[1, 2, 0, 3]` survive the filters and
yield the disjoint sorted sample `[(1, 3), (3, 6)]`. -/
theorem C9_sorted_bounds_disjoint_witness :
    sorted_bounds_survives true false [1, 2, 0, 3] = true ∧
    ((∀ p ∈ sorted_bounds_sample true [1, 2, 0, 3], p.1 < p.2) ∧
      (sorted_bounds_sample true [1, 2, 0, 3]).Pairwise pairLe ∧
      (sorted_bounds_sample true [1, 2, 0, 3]).Pairwise
        (fun p q => p.2 ≤ q.1)) := by
  exact ⟨by decide, C9_sorted_bounds_disjoint [1, 2, 0, 3] (by decide)
    (by decide) (by decide)⟩

/-- C10: the decorator returned by `takes_config()` with zero options never
installs a registry on the decorated class: reading the never-bound loop
variable makes every application fail with the unbound-name error before the
class is returned. -/
theorem C10_takes_config_empty (pc : PluginClass) :
    takes_config [] pc =
      Except.error (ConfigError.nameError ("name opt is not defined")) :=
  rfl
